import Mathlib

/-!
Verification of the Doraemon-car-music-bot audio-capture / wake-word pipeline.

Shallow embedding of the Python sources:
  * `doraemon/wake_word.py`  — fuzzy wake-word matching, backend probing,
    segment recording on Termux, speech-recognition wake loop;
  * `doraemon/audio.py`      — the `AudioRecorder` frame source;
  * `doraemon/listener.py`   — phrase listening and raw segment recording;
  * `main.py`                — the retry-once listen policy of the outer loop.

Bytes are modelled as `Nat` (values below 256 where it matters), byte strings
as `List Nat`, Python text as `String` or `List Char`.  External effects
(subprocess results, file reads, exceptions raised by library calls) are
modelled as explicit environment records; a Python function that can raise is
embedded with result type `Except Unit _` or with an explicit outcome flag.
-/

/-! ## Normalisation and fuzzy wake-word matching (`wake_word._matches_wake_word`)

The source normalises with `re.sub(r"[\s\-'\".,!?]+", "", s.lower())` and then
performs a Python substring test.  `Char.toLower` is the ASCII fragment of
`str.lower`, which is exact on every input the pipeline compares.  The
whitespace class `\s` is modelled by its ASCII members (space, tab, newline,
carriage return, vertical tab, form feed).
-/

/-- ASCII members of the regex class `\s`: space, `\t`, `\n`, `\r`, `\x0b`, `\x0c`. -/
def isPySpace (c : Char) : Bool :=
  c = ' ' || c = '\t' || c = '\n' || c = '\r' || c = Char.ofNat 11 || c = Char.ofNat 12

/-- Characters removed by the source's normalisation regex `[\s\-'\".,!?]`:
whitespace, hyphen, apostrophe (code 39), double quote (code 34), and the
punctuation `.`, `,`, `!`, `?`. -/
def isStrippedChar (c : Char) : Bool :=
  isPySpace c || c = '-' || c = Char.ofNat 39 || c = Char.ofNat 34 ||
    c = '.' || c = ',' || c = '!' || c = '?'

/-- The source's `normalise`: lower-case, then delete every character of the
stripped class (`re.sub(r"[\s\-'\".,!?]+", "", s.lower())`). -/
def normalise (s : List Char) : List Char :=
  (s.map Char.toLower).filter fun c => !isStrippedChar c

/-- Boolean test that `needle` is an initial segment of `hay`
(the building block of Python's substring operator `in`). -/
def seqStartsWith : List Char → List Char → Bool
  | _, [] => true
  | [], _ :: _ => false
  | a :: hs, b :: ns => a = b && seqStartsWith hs ns

/-- Boolean contiguous-substring test, Python's `needle in hay` on strings. -/
def seqContains : List Char → List Char → Bool
  | hay, needle =>
    if seqStartsWith hay needle then true
    else
      match hay with
      | [] => false
      | _ :: t => seqContains t needle

/-- Embedding of `wake_word._matches_wake_word(text, wake_word)`:
`normalise(wake_word) in normalise(text)`. -/
def matchesWakeWord (text wakeWord : String) : Bool :=
  seqContains (normalise text.data) (normalise wakeWord.data)

/-! ## Frame reads from the sox pipe (`audio.AudioRecorder._read_sox`)

The sox backend reads `frame_length * 2` bytes from the subprocess pipe,
looping over short reads, raising `RuntimeError` when a read returns zero
bytes, then unpacks little-endian int16 samples.  The pipe is modelled as the
trace of chunks successive `.read` calls deliver; a pipe read returns at most
the requested byte count, enforced with `List.take`, and an empty chunk models
end of stream.  `none` is the embedded `RuntimeError`.
-/

/-- Signed 16-bit little-endian value of a byte pair, as `struct.unpack "<h"`. -/
def int16OfBytes (lo hi : Nat) : Int :=
  let v : Nat := lo % 256 + 256 * (hi % 256)
  if v < 32768 then (v : Int) else (v : Int) - 65536

/-- Unpack a little-endian int16 byte string, as `struct.unpack(f"<{n}h", data)`. -/
def unpackInt16LE : List Nat → List Int
  | lo :: hi :: rest => int16OfBytes lo hi :: unpackInt16LE rest
  | _ => []

/-- The accumulation loop of `_read_sox`: `data` is the bytes gathered so far,
`target` the frame byte count, `chunks` the trace of pipe deliveries. -/
def readSoxAux (target : Nat) : List Nat → List (List Nat) → Option (List Nat)
  | data, [] => if target ≤ data.length then some data else none
  | data, c :: rest =>
    if target ≤ data.length then some data
    -- `chunk = self._process.stdout.read(byte_count - len(data))`; the pipe
    -- returns at most the requested count, and `if not chunk: raise`
    else if c.take (target - data.length) = [] then none
    else readSoxAux target (data ++ c.take (target - data.length)) rest

/-- Embedding of `AudioRecorder._read_sox` for a recorder with the given
`frameLength`: assemble `frameLength * 2` bytes, then unpack int16 samples. -/
def readSox (frameLength : Nat) (chunks : List (List Nat)) : Option (List Int) :=
  (readSoxAux (frameLength * 2) [] chunks).map unpackInt16LE

/-! ## Recorder lifecycle (`audio.AudioRecorder.start/stop/delete`)

The recorder state carries the chosen backend, the `_started` flag and whether
the lazily created handles (`_recorder`, `_process`) are present.  Library
calls that may raise are `Except Unit Unit` valued, driven by an environment
record; a `try/except` of the source appears as a `match` handling the
`.error` constructor.
-/

/-- Capture backend selected in `AudioRecorder.__init__` (static per instance). -/
inductive RecorderBackend where
  | pvrecorder
  | sox
deriving DecidableEq, Repr

/-- Outcomes of the external calls the recorder lifecycle makes. -/
structure RecorderEnv where
  /-- `PvRecorder(...)`/`.start()` raises. -/
  pvStartRaises : Bool
  /-- `self._recorder.stop()` raises. -/
  recStopRaises : Bool
  /-- `self._recorder.delete()` raises. -/
  recDeleteRaises : Bool
  /-- `self._process.terminate()` or `.wait(timeout=3)` raises. -/
  procTerminateRaises : Bool
  /-- `self._process.poll() is None` inside the except branch. -/
  procStillAlive : Bool
  /-- `shutil.which("sox")` found a binary. -/
  soxAvailable : Bool

/-- Mutable state of an `AudioRecorder` instance. -/
structure RecorderState where
  backend : RecorderBackend
  started : Bool
  hasRecorder : Bool
  hasProcess : Bool
deriving DecidableEq, Repr

/-- Library call `self._recorder.stop()`. -/
def opRecorderStop (env : RecorderEnv) : Except Unit Unit :=
  if env.recStopRaises then .error () else .ok ()

/-- Library call `self._recorder.delete()`. -/
def opRecorderDelete (env : RecorderEnv) : Except Unit Unit :=
  if env.recDeleteRaises then .error () else .ok ()

/-- Library calls `self._process.terminate(); self._process.wait(timeout=3)`. -/
def opProcTerminate (env : RecorderEnv) : Except Unit Unit :=
  if env.procTerminateRaises then .error () else .ok ()

/-- Library call `self._process.kill()`; `Popen.kill` does not raise on a
process that already exited. -/
def opProcKill : Except Unit Unit := .ok ()

/-- Embedding of `AudioRecorder._start_pvrecorder`. -/
def startPvrecorder (env : RecorderEnv) (s : RecorderState) : Except Unit RecorderState :=
  if env.pvStartRaises then .error ()
  else .ok { s with hasRecorder := true }

/-- Embedding of `AudioRecorder._start_sox`: raises `FileNotFoundError` when
sox is absent, otherwise spawns the pipe subprocess. -/
def startSox (env : RecorderEnv) (s : RecorderState) : Except Unit RecorderState :=
  if ¬ env.soxAvailable then .error ()
  else .ok { s with hasProcess := true }

/-- Embedding of `AudioRecorder.start`. -/
def recorderStart (env : RecorderEnv) (s : RecorderState) : Except Unit RecorderState :=
  if s.started then .ok s
  else
    match (match s.backend with
           | .pvrecorder => startPvrecorder env s
           | .sox => startSox env s) with
    | .error e => .error e
    | .ok s1 => .ok { s1 with started := true }

/-- Embedding of `AudioRecorder._stop_pvrecorder`: the `stop()` call is wrapped
in `try/except Exception: pass`. -/
def stopPvrecorder (env : RecorderEnv) (s : RecorderState) : Except Unit RecorderState :=
  if s.hasRecorder then
    match opRecorderStop env with
    | .ok _ => .ok s
    | .error _ => .ok s
  else .ok s

/-- Embedding of `AudioRecorder._stop_sox`: terminate and wait inside
`try/except`, kill if still alive, then drop the process handle. -/
def stopSox (env : RecorderEnv) (s : RecorderState) : Except Unit RecorderState :=
  if s.hasProcess then
    match opProcTerminate env with
    | .ok _ => .ok { s with hasProcess := false }
    | .error _ =>
      match (if env.procStillAlive then opProcKill else .ok ()) with
      | .ok _ => .ok { s with hasProcess := false }
      | .error e => .error e
  else .ok s

/-- Embedding of `AudioRecorder.stop`. -/
def recorderStop (env : RecorderEnv) (s : RecorderState) : Except Unit RecorderState :=
  if ¬ s.started then .ok s
  else
    match (match s.backend with
           | .pvrecorder => stopPvrecorder env s
           | .sox => stopSox env s) with
    | .error e => .error e
    | .ok s1 => .ok { s1 with started := false }

/-- Embedding of `AudioRecorder.delete`: `stop()`, then release the native
handle with the `delete()` call wrapped in `try/except Exception: pass`. -/
def recorderDelete (env : RecorderEnv) (s : RecorderState) : Except Unit RecorderState :=
  match recorderStop env s with
  | .error e => .error e
  | .ok s1 =>
    if s1.hasRecorder then
      match opRecorderDelete env with
      | .ok _ => .ok { s1 with hasRecorder := false }
      | .error _ => .ok { s1 with hasRecorder := false }
    else .ok s1

/-! ## Backend probing (`wake_word._try_import_porcupine`, `_verify_native_library`)

The prober first tries a plain import; on `NotImplementedError` it reads the
CPU part from `/proc/cpuinfo`, consults the static `_MOBILE_CPU_MAP`, patches
`subprocess.check_output` inside a `try`, retries the import, and restores the
wrapper in the `finally`.  The model threads the value of
`subprocess.check_output` through the call and records which value the
retried import observed.
-/

/-- Outcome of the plain `import pvporcupine` attempt. -/
inductive PlainImportOutcome where
  | ok
  | importError
  | notImplementedError
deriving DecidableEq, Repr

/-- Value held by the global `subprocess.check_output` binding: the real
function, or the monkey-patched wrapper substituting `actual` by
`replacement` in the output of `cat /proc/cpuinfo`. -/
inductive CheckOutputFn where
  | original
  | patchedWith (actual replacement : String)
deriving DecidableEq, Repr

/-- What the patched wrapper returns for the cpuinfo command: the real output
with every occurrence of the actual CPU part replaced by the mapped one
(`result.replace(actual_part, replacement_part)`). -/
def patchedCpuinfoOutput (actual replacement out : String) : String :=
  out.replace actual replacement

/-- The static `_MOBILE_CPU_MAP` of `wake_word.py`, verbatim. -/
def mobileCpuMap : List (String × String) :=
  [("0xd04", "0xd03"), ("0xd05", "0xd03"), ("0xd09", "0xd08"), ("0xd0a", "0xd08"),
   ("0xd0d", "0xd0b"), ("0xd41", "0xd0b"), ("0xd44", "0xd0b"), ("0xd46", "0xd0b"),
   ("0xd47", "0xd0b"), ("0xd48", "0xd0b"), ("0xd4d", "0xd0b"), ("0xd4e", "0xd0b")]

/-- External-world outcomes the probing routine can observe. -/
structure ProbeEnv where
  /-- Result of the plain `import pvporcupine`. -/
  plainImport : PlainImportOutcome
  /-- Whether `cdll.LoadLibrary(pv_library_path())` succeeds
  (`_verify_native_library` returns the module rather than `None`). -/
  nativeLibLoads : Bool
  /-- CPU part parsed from `/proc/cpuinfo`; `none` models an exception while
  reading or an absent "CPU part" line (`actual_part = ""` also misses the map,
  so it is folded into the not-in-map case by giving the parsed string). -/
  cpuPartRead : Option String
  /-- Whether the retried `import pvporcupine` under the patch succeeds. -/
  patchedImportOk : Bool

/-- Embedding of `_verify_native_library`: `true` when the native shared
library loads, `false` when `cdll.LoadLibrary` raises. -/
def verifyNativeLibrary (env : ProbeEnv) : Bool :=
  env.nativeLibLoads

/-- Result of the probing routine: whether a usable module was returned, the
value of `subprocess.check_output` at return, and the value it held while the
retried import ran (`none` when no retry happened). -/
structure TryImportResult where
  loaded : Bool
  checkOutputAtReturn : CheckOutputFn
  checkOutputDuringRetry : Option CheckOutputFn
deriving DecidableEq, Repr

/-- Embedding of `_try_import_porcupine`, threading the global
`subprocess.check_output` binding `co` through every path. -/
def tryImportPorcupine (env : ProbeEnv) (co : CheckOutputFn) : TryImportResult :=
  match env.plainImport with
  | .ok => { loaded := verifyNativeLibrary env, checkOutputAtReturn := co,
             checkOutputDuringRetry := none }
  | .importError => { loaded := false, checkOutputAtReturn := co,
                      checkOutputDuringRetry := none }
  | .notImplementedError =>
    match env.cpuPartRead with
    | none => { loaded := false, checkOutputAtReturn := co,
                checkOutputDuringRetry := none }
    | some actualPart =>
      match mobileCpuMap.lookup actualPart with
      | none => { loaded := false, checkOutputAtReturn := co,
                  checkOutputDuringRetry := none }
      | some replacementPart =>
        -- `_real_check_output = subprocess.check_output` saves `co`;
        -- the try block installs the patched wrapper and retries the import;
        -- the `finally` restores the saved value on both exits.
        let patched := CheckOutputFn.patchedWith actualPart replacementPart
        if env.patchedImportOk then
          { loaded := verifyNativeLibrary env, checkOutputAtReturn := co,
            checkOutputDuringRetry := some patched }
        else
          { loaded := false, checkOutputAtReturn := co,
            checkOutputDuringRetry := some patched }

/-! ## Module-level backend decision (`wake_word` import time, `wait_for_wake_word`)

The probe runs once, at module import: `_porcupine_mod` is assigned by the
top-level `if IS_TERMUX` block and never reassigned.  `wait_for_wake_word`
only reads `IS_TERMUX` and `_porcupine_mod`.
-/

/-- Wake engine strategy. -/
inductive WakeEngineMode where
  | nativeSpotter
  | transcribeAndMatch
deriving DecidableEq, Repr

/-- Process-wide state of the `wake_word` module. -/
structure WakeModuleState where
  isTermux : Bool
  /-- Whether `_porcupine_mod` is not `None`. -/
  porcupineLoaded : Bool
  /-- Number of executions of `_try_import_porcupine` so far. -/
  probeCount : Nat
deriving DecidableEq, Repr

/-- Module import: on Termux the probe runs exactly once and its result is
stored in `_porcupine_mod`; on desktop a plain import binds the module. -/
def initWakeModule (isTermux probeLoads : Bool) : WakeModuleState :=
  if isTermux then
    { isTermux := true, porcupineLoaded := probeLoads, probeCount := 1 }
  else
    { isTermux := false, porcupineLoaded := true, probeCount := 0 }

/-- The dispatch condition of `wait_for_wake_word`:
`if IS_TERMUX and _porcupine_mod is None: speech recognition, else porcupine`. -/
def wakeBackend (s : WakeModuleState) : WakeEngineMode :=
  if s.isTermux ∧ ¬ s.porcupineLoaded then .transcribeAndMatch else .nativeSpotter

/-- One call of `wait_for_wake_word` as far as backend selection goes: it
reads the module state and never writes it. -/
def waitForWakeWordDispatch (s : WakeModuleState) : WakeEngineMode × WakeModuleState :=
  (wakeBackend s, s)

/-- Module state after `n` further calls of `wait_for_wake_word`. -/
def dispatchStateAfter : Nat → WakeModuleState → WakeModuleState
  | 0, s => s
  | n + 1, s => dispatchStateAfter n (waitForWakeWordDispatch s).2

/-! ## Segment recording on Termux (`wake_word._record_segment_termux`)

Strategy 1 launches `termux-microphone-record`, polls the output file (three
attempts), unlinks it, gates on a 100-byte minimum, and pipes the opus data
through ffmpeg.  Strategy 2 records raw PCM with sox.  Every external call
carries a timeout; an exception anywhere in the first strategy returns
`(None, None)` through the enclosing `except Exception` handler.
-/

/-- Shared sox invocation of both recording modules
(`if proc.returncode == 0 and proc.stdout: return proc.stdout, sample_rate`);
`raises` covers `subprocess.TimeoutExpired` and any other exception. -/
def soxPipeRecord (avail raises : Bool) (returncode : Nat) (stdout : List Nat)
    (rate : Nat) : Option (List Nat × Nat) :=
  if ¬ avail then none
  else if raises then none
  else if returncode = 0 ∧ stdout ≠ [] then some (stdout, rate)
  else none

/-- The three-attempt poll loop of `_record_segment_termux`: each iteration
reads the file (an absent file reads as `[]`), breaking once at least 100
bytes are seen; the last read is kept otherwise. -/
def pollFileReads : List (List Nat) → List Nat
  | [] => []
  | [r] => r
  | r :: rest => if 100 ≤ r.length then r else pollFileReads rest

/-- External-world outcomes of one `_record_segment_termux` call. -/
structure SegRecEnv where
  /-- `shutil.which("termux-microphone-record")` found. -/
  termuxRecAvail : Bool
  /-- `shutil.which("ffmpeg")` found. -/
  ffmpegAvail : Bool
  /-- The `subprocess.run([termux_rec, ...], timeout=10)` call raises
  (for example `TimeoutExpired`). -/
  recRunRaises : Bool
  /-- The recorder actually created the output file on disk. -/
  fileWritten : Bool
  /-- Contents delivered by the successive reads of the poll loop. -/
  fileReads : List (List Nat)
  /-- The ffmpeg `subprocess.run(..., timeout=10)` call raises. -/
  ffmpegRaises : Bool
  ffmpegReturncode : Nat
  ffmpegStdout : List Nat
  /-- `shutil.which("sox")` found. -/
  soxAvail : Bool
  /-- The sox `subprocess.run` raises. -/
  soxRaises : Bool
  soxReturncode : Nat
  soxStdout : List Nat

/-- Observable result of `_record_segment_termux`: the returned
`(raw_pcm_bytes, sample_rate)` pair (or `None, None`), whether
`os.unlink(rec_path)` was executed, and whether ffmpeg decoding was invoked. -/
structure SegRecResult where
  payload : Option (List Nat × Nat)
  unlinkCalled : Bool
  decoderCalled : Bool
deriving DecidableEq, Repr

/-- Embedding of `wake_word._record_segment_termux(duration_sec, sample_rate)`. -/
def recordSegmentTermux (env : SegRecEnv) (sampleRate : Nat) : SegRecResult :=
  if env.termuxRecAvail ∧ env.ffmpegAvail then
    if env.recRunRaises then
      -- the enclosing `except Exception` handler returns `None, None`
      { payload := none, unlinkCalled := false, decoderCalled := false }
    else
      -- `data` is the poll-loop result; `try: os.unlink(rec_path) except: pass`
      if pollFileReads env.fileReads = [] ∨ (pollFileReads env.fileReads).length < 100 then
        { payload := none, unlinkCalled := true, decoderCalled := false }
      else if env.ffmpegRaises then
        { payload := none, unlinkCalled := true, decoderCalled := true }
      else if env.ffmpegReturncode ≠ 0 ∨ env.ffmpegStdout = [] then
        { payload := none, unlinkCalled := true, decoderCalled := true }
      else
        { payload := some (env.ffmpegStdout, sampleRate), unlinkCalled := true,
          decoderCalled := true }
  else
    { payload := soxPipeRecord env.soxAvail env.soxRaises env.soxReturncode
        env.soxStdout sampleRate,
      unlinkCalled := false, decoderCalled := false }

/-! ## Raw segment recording for the listener (`listener._record_raw_termux`)

Like `_record_segment_termux` but with five poll attempts that keep the last
successful read, a `tempfile` handed to opusdec/ffmpeg whose deletion sits in
a `finally`, and — on any exception or decode miss — a fall-through to the
sox strategy instead of an early return.
-/

/-- The five-attempt poll loop of `_record_raw_termux`: `data` starts empty
and survives a `FileNotFoundError` (modelled as `none`). -/
def pollFileReadsKeep (data : List Nat) : List (Option (List Nat)) → List Nat
  | [] => data
  | r :: rest =>
    let d := match r with
             | some bytes => bytes
             | none => data
    if d ≠ [] ∧ 100 ≤ d.length then d else pollFileReadsKeep d rest

/-- External-world outcomes of one `_record_raw_termux` call. -/
structure RawRecEnv where
  termuxRecAvail : Bool
  ffmpegAvail : Bool
  /-- The recorder `subprocess.run(..., timeout=duration + 12)` raises. -/
  recRunRaises : Bool
  /-- The recorder actually created the output file on disk. -/
  fileWritten : Bool
  fileReads : List (Option (List Nat))
  /-- `shutil.which("opusdec")` found. -/
  opusdecAvail : Bool
  opusdecRaises : Bool
  opusdecReturncode : Nat
  opusdecStdout : List Nat
  ffmpegRaises : Bool
  ffmpegReturncode : Nat
  ffmpegStdout : List Nat
  soxAvail : Bool
  soxRaises : Bool
  soxReturncode : Nat
  soxStdout : List Nat

/-- Observable result of `_record_raw_termux`. -/
structure RawRecResult where
  payload : Option (List Nat × Nat)
  /-- Whether `os.unlink(rec_path)` was executed. -/
  recUnlinkCalled : Bool
  /-- Whether the `tempfile` decoder input was created. -/
  tmpCreated : Bool
  /-- Whether the `finally: os.unlink(tmp_path)` ran. -/
  tmpDeleted : Bool
  /-- Whether a decoder (opusdec or ffmpeg) was invoked. -/
  decoderCalled : Bool
deriving DecidableEq, Repr

/-- Fall-through to the sox strategy after the tempfile block of
`_record_raw_termux` (decoders missed or raised; `finally` already deleted
the tempfile). -/
def rawSoxAfterTmp (env : RawRecEnv) (rate : Nat) : RawRecResult :=
  { payload := soxPipeRecord env.soxAvail env.soxRaises env.soxReturncode
      env.soxStdout rate,
    recUnlinkCalled := true, tmpCreated := true, tmpDeleted := true,
    decoderCalled := true }

/-- The ffmpeg temp-file decode of `_record_raw_termux`. -/
def rawFfmpegDecode (env : RawRecEnv) (rate : Nat) : RawRecResult :=
  if env.ffmpegRaises then rawSoxAfterTmp env rate
  else if env.ffmpegReturncode = 0 ∧ env.ffmpegStdout ≠ [] then
    { payload := some (env.ffmpegStdout, rate), recUnlinkCalled := true,
      tmpCreated := true, tmpDeleted := true, decoderCalled := true }
  else rawSoxAfterTmp env rate

/-- The decode block of `_record_raw_termux`: opusdec when available, then
ffmpeg; the `finally` deletes the tempfile on every exit. -/
def rawDecodeTmp (env : RawRecEnv) (rate : Nat) : RawRecResult :=
  if env.opusdecAvail then
    if env.opusdecRaises then rawSoxAfterTmp env rate
    else if env.opusdecReturncode = 0 ∧ env.opusdecStdout ≠ [] then
      { payload := some (env.opusdecStdout, rate), recUnlinkCalled := true,
        tmpCreated := true, tmpDeleted := true, decoderCalled := true }
    else rawFfmpegDecode env rate
  else rawFfmpegDecode env rate

/-- Embedding of `listener._record_raw_termux(duration, sample_rate)`. -/
def recordRawTermux (env : RawRecEnv) (rate : Nat) : RawRecResult :=
  if env.termuxRecAvail ∧ env.ffmpegAvail then
    if env.recRunRaises then
      -- `except subprocess.TimeoutExpired: pass` / `except Exception: pass`,
      -- then control reaches the sox section
      { payload := soxPipeRecord env.soxAvail env.soxRaises env.soxReturncode
          env.soxStdout rate,
        recUnlinkCalled := false, tmpCreated := false, tmpDeleted := false,
        decoderCalled := false }
    else
      -- `data` is the poll-loop result;
      -- `try: os.unlink(rec_path) except Exception: pass` (before the gate)
      if pollFileReadsKeep [] env.fileReads ≠ [] ∧
          100 ≤ (pollFileReadsKeep [] env.fileReads).length then rawDecodeTmp env rate
      else
        { payload := soxPipeRecord env.soxAvail env.soxRaises env.soxReturncode
            env.soxStdout rate,
          recUnlinkCalled := true, tmpCreated := false, tmpDeleted := false,
          decoderCalled := false }
  else
    { payload := soxPipeRecord env.soxAvail env.soxRaises env.soxReturncode
        env.soxStdout rate,
      recUnlinkCalled := false, tmpCreated := false, tmpDeleted := false,
      decoderCalled := false }

/-! ## Phrase listening (`listener.listen_for_song_name`, `main.main`)

The listener records (Termux) or listens on the microphone (desktop), then
transcribes.  `(text or "").strip() or None` collapses an empty or whitespace
transcription to `None`; `UnknownValueError`, `RequestError`, capture failure
and the pre-speech timeout also return `None`.  Python `str.strip()` is
modelled on its ASCII whitespace members.
-/

/-- Python `str.strip()` on a character list: drop leading and trailing
whitespace. -/
def pyStrip (l : List Char) : List Char :=
  ((l.dropWhile isPySpace).reverse.dropWhile isPySpace).reverse

/-- Python `str.strip()` on `String`. -/
def pyStripStr (s : String) : String :=
  ⟨pyStrip s.data⟩

/-- Outcome of `recognizer.recognize_google`. -/
inductive RecognizeOutcome where
  | recognized (text : String)
  | unknownValueError
  | requestError
deriving DecidableEq, Repr

/-- External-world outcomes of one `listen_for_song_name` call. -/
structure ListenEnv where
  isTermux : Bool
  /-- Result of `_record_wav_termux` (`none` models a capture failure). -/
  termuxAudio : Option (List Nat)
  /-- Desktop path: `recognizer.listen` raised `WaitTimeoutError`. -/
  waitTimeoutRaised : Bool
  recognize : RecognizeOutcome
deriving DecidableEq, Repr

/-- The transcription tail of `listen_for_song_name`:
`return (text or "").strip() or None` with both error handlers. -/
def recognizeSongStep (outcome : RecognizeOutcome) : Option String :=
  match outcome with
  | .recognized text =>
    if pyStripStr text = "" then none else some (pyStripStr text)
  | .unknownValueError => none
  | .requestError => none

/-- Embedding of `listener.listen_for_song_name`. -/
def listenForSongName (env : ListenEnv) : Option String :=
  if env.isTermux then
    match env.termuxAudio with
    | none => none
    | some _ => recognizeSongStep env.recognize
  else
    if env.waitTimeoutRaised then none
    else recognizeSongStep env.recognize

/-- Observable outcome of the retry-once listen policy in `main.main`. -/
structure RetryOutcome where
  phrase : Option String
  attempts : Nat
  sorrySpoken : Bool
deriving DecidableEq, Repr

/-- Embedding of the `main.main` listen block: one listen, a retry when the
result is falsy, and the "sorry" feedback when the retry is falsy too. -/
def mainListenRetry (e1 e2 : ListenEnv) : RetryOutcome :=
  let p1 := listenForSongName e1
  if p1 = none ∨ p1 = some "" then
    let p2 := listenForSongName e2
    if p2 = none ∨ p2 = some "" then
      { phrase := p2, attempts := 2, sorrySpoken := true }
    else
      { phrase := p2, attempts := 2, sorrySpoken := false }
  else
    { phrase := p1, attempts := 1, sorrySpoken := false }

/-! ## Wake detection on a recognised transcript (`wake_word._wait_speech_recognition`)

Configuration relevant to matching: `config.WAKE_WORD` (default "doraemon")
and `config.WAKE_PHRASES` (extra comma-separated phrases, default "").
`_wait_speech_recognition` computes `wake_word = config.WAKE_WORD.lower()`
once and, for each recognised transcript, tests only
`_matches_wake_word(text, wake_word)`.
-/

/-- Python `str.lower()` on `String` (ASCII fragment). -/
def strToLower (s : String) : String :=
  ⟨s.data.map Char.toLower⟩

/-- The wake-matching configuration read from `config`. -/
structure WakeSRConfig where
  wakeWord : String
  /-- Parsed extra phrases from `config.WAKE_PHRASES`. -/
  wakePhrases : List String
deriving DecidableEq, Repr

/-- The detection test `_wait_speech_recognition` applies to a recognised
transcript: `_matches_wake_word(text, config.WAKE_WORD.lower())`; the
configured extra phrases are not consulted anywhere in the source. -/
def wakeTranscriptDetected (cfg : WakeSRConfig) (transcript : String) : Bool :=
  matchesWakeWord transcript (strToLower cfg.wakeWord)

/-- The detection the spec describes, for comparison with
`wakeTranscriptDetected`: a recognised transcript triggers detection when any
configured wake phrase — the primary wake word or an extra configured phrase —
matches it under the fuzzy rule. -/
def wakeTranscriptDetectedSpec (cfg : WakeSRConfig) (transcript : String) : Bool :=
  (cfg.wakeWord :: cfg.wakePhrases).any fun w => matchesWakeWord transcript (strToLower w)

/-- The environment of the C5 counterexample: `termux-microphone-record` (or
ffmpeg) absent, sox succeeding with a three-byte payload. -/
def c5SoxEnv : SegRecEnv :=
  ⟨false, false, false, false, [], false, 0, [], true, false, 0, [1, 2, 3]⟩

/-- The environment of the C8 counterexample: the recorder invocation raises
(`TimeoutExpired`) after the output file was created; sox is absent. -/
def c8TimeoutEnv : RawRecEnv :=
  ⟨true, true, true, true, [], false, false, 0, [], false, 0, [], false, false, 0, []⟩

/-! # Theorems -/

/-! ## Character and list helper lemmas -/

theorem charOfNat_toNat (n : Nat) (h : n < 55296) : (Char.ofNat n).toNat = n := by
  unfold Char.ofNat
  rw [dif_pos (Or.inl h)]
  rfl

theorem charToLower_idem (c : Char) : c.toLower.toLower = c.toLower := by
  unfold Char.toLower
  by_cases h : c.toNat ≥ 65 ∧ c.toNat ≤ 90
  · rw [if_pos h]
    have ht : (Char.ofNat (c.toNat + 32)).toNat = c.toNat + 32 :=
      charOfNat_toNat _ (by omega)
    rw [if_neg]
    intro hcontra
    rw [ht] at hcontra
    omega
  · rw [if_neg h, if_neg h]

theorem map_fixed_eq_self {α : Type} (f : α → α) :
    ∀ l : List α, (∀ x ∈ l, f x = x) → l.map f = l
  | [], _ => rfl
  | a :: t, h => by
    have ha := h a (List.mem_cons_self a t)
    have ht := map_fixed_eq_self f t fun x hx => h x (List.mem_cons_of_mem a hx)
    simp only [List.map_cons, ha, ht]

theorem filter_twice {α : Type} (p : α → Bool) :
    ∀ l : List α, (l.filter p).filter p = l.filter p
  | [] => rfl
  | a :: t => by
    by_cases h : p a = true
    · rw [List.filter_cons_of_pos h, List.filter_cons_of_pos h, filter_twice p t]
    · rw [List.filter_cons_of_neg h, filter_twice p t]

theorem normalise_idem (l : List Char) : normalise (normalise l) = normalise l := by
  have hfix : ∀ x ∈ (l.map Char.toLower).filter (fun c => !isStrippedChar c),
      Char.toLower x = x := by
    intro x hx
    rcases List.mem_map.1 (List.mem_of_mem_filter hx) with ⟨a, _, rfl⟩
    exact charToLower_idem a
  unfold normalise
  rw [map_fixed_eq_self Char.toLower _ hfix]
  exact filter_twice _ _

theorem seqStartsWith_self_append :
    ∀ needle t : List Char, seqStartsWith (needle ++ t) needle = true
  | [], t => by cases t <;> rfl
  | b :: ns, t => by
    simp [List.cons_append, seqStartsWith, seqStartsWith_self_append ns t]

theorem seqContains_append :
    ∀ s needle t : List Char, seqContains (s ++ needle ++ t) needle = true
  | [], needle, t => by
    rw [List.nil_append]
    unfold seqContains
    rw [if_pos (seqStartsWith_self_append needle t)]
  | a :: s1, needle, t => by
    unfold seqContains
    split
    · rfl
    · simpa [List.cons_append] using seqContains_append s1 needle t

/-- C1: `_matches_wake_word` returns true whenever the normalisation of the
wake phrase (lower-casing and removing whitespace, hyphens, apostrophes and
punctuation) occurs as a contiguous substring of the normalisation of the
transcript; normalisation is idempotent; the transcript `"dora e mon"`
matches the wake phrase `"doraemon"`, and `"play avenged sevenfold"` does
not. -/
theorem C1_fuzzy_match :
    (∀ wake transcript : String,
        normalise wake.data <:+: normalise transcript.data →
        matchesWakeWord transcript wake = true) ∧
    (∀ transcript : String,
        normalise (normalise transcript.data) = normalise transcript.data) ∧
    matchesWakeWord "dora e mon" "doraemon" = true ∧
    matchesWakeWord "play avenged sevenfold" "doraemon" = false := by
  refine ⟨?_, fun transcript => normalise_idem _, by decide, by decide⟩
  intro wake transcript h
  rcases h with ⟨s, t, hst⟩
  unfold matchesWakeWord
  rw [← hst]
  exact seqContains_append s _ t

/-- Witness for C1: the substring hypothesis discharged at a concrete pair. -/
theorem C1_fuzzy_match_witness : matchesWakeWord "hey doraemon" "doraemon" = true :=
  C1_fuzzy_match.1 "doraemon" "hey doraemon" (by decide)

/-! ## Frame-length lemmas for the sox reader -/

theorem unpackInt16LE_length : ∀ bs : List Nat, (unpackInt16LE bs).length = bs.length / 2
  | [] => by simp [unpackInt16LE]
  | [_] => by simp [unpackInt16LE]
  | _ :: _ :: rest => by
    simp only [unpackInt16LE, List.length_cons, unpackInt16LE_length rest]
    omega

theorem readSoxAux_some_length (target : Nat) :
    ∀ (chunks : List (List Nat)) (data out : List Nat),
      data.length ≤ target → readSoxAux target data chunks = some out →
      out.length = target
  | [], data, out, hle, h => by
    unfold readSoxAux at h
    split at h
    · injection h with h1
      subst h1
      omega
    · exact absurd h (by simp)
  | c :: rest, data, out, hle, h => by
    unfold readSoxAux at h
    split at h
    · rename_i hge
      injection h with h1
      subst h1
      omega
    · rename_i hlt
      split at h
      · exact absurd h (by simp)
      · have hlen : (data ++ c.take (target - data.length)).length ≤ target := by
          simp only [List.length_append, List.length_take]
          omega
        exact readSoxAux_some_length target rest _ out hlen h

theorem readSoxAux_some_of_chunks (target : Nat) :
    ∀ (chunks : List (List Nat)) (data : List Nat),
      (∀ c ∈ chunks, c ≠ []) → target ≤ data.length + chunks.length →
      (readSoxAux target data chunks).isSome = true
  | [], data, _, hge => by
    unfold readSoxAux
    rw [if_pos (by simpa using hge)]
    rfl
  | c :: rest, data, hne, hge => by
    unfold readSoxAux
    split
    · rfl
    · rename_i hlt
      have hc : c ≠ [] := hne c (List.mem_cons_self c rest)
      have hcpos : 0 < c.length := List.length_pos.2 hc
      have htlen : 0 < (c.take (target - data.length)).length := by
        rw [List.length_take]
        omega
      rw [if_neg (by intro hcontra; rw [hcontra] at htlen; exact absurd htlen (by simp))]
      apply readSoxAux_some_of_chunks target rest
      · intro d hd
        exact hne d (List.mem_cons_of_mem c hd)
      · simp only [List.length_append, List.length_cons] at *
        omega

/-- C2: the sox-pipe variant of `AudioRecorder.read` returns frames of exactly
`frame_length` int16 samples: any successful read yields that many samples;
short (but non-empty) pipe deliveries are looped over, so enough non-empty
chunks always complete the frame; and a read that returns zero bytes before
the frame is complete raises (returns the embedded error). -/
theorem C2_read_exact_frames :
    (∀ (frameLength : Nat) (chunks : List (List Nat)) (frame : List Int),
        readSox frameLength chunks = some frame → frame.length = frameLength) ∧
    (∀ (frameLength : Nat) (chunks : List (List Nat)),
        (∀ c ∈ chunks, c ≠ []) → frameLength * 2 ≤ chunks.length →
        (readSox frameLength chunks).isSome = true) ∧
    (∀ (frameLength : Nat) (data : List Nat) (rest : List (List Nat)),
        data.length < frameLength * 2 →
        readSoxAux (frameLength * 2) data ([] :: rest) = none) := by
  refine ⟨?_, ?_, ?_⟩
  · intro L chunks frame h
    unfold readSox at h
    cases hx : readSoxAux (L * 2) [] chunks with
    | none => rw [hx] at h; exact absurd h (by simp)
    | some bytes =>
      rw [hx] at h
      have hb : (unpackInt16LE bytes) = frame := by simpa using h
      have hlen := readSoxAux_some_length (L * 2) chunks [] bytes (by simp) hx
      rw [← hb, unpackInt16LE_length, hlen]
      omega
  · intro L chunks hne hlen
    unfold readSox
    have h := readSoxAux_some_of_chunks (L * 2) chunks [] hne (by simpa using hlen)
    cases hx : readSoxAux (L * 2) [] chunks with
    | none => rw [hx] at h; exact absurd h (by simp)
    | some bytes => simp
  · intro L data rest h
    unfold readSoxAux
    rw [if_neg (by omega), if_pos (by simp)]

/-- Witness for C2: a frame of two samples assembled from four one-byte pipe
deliveries. -/
theorem C2_read_exact_frames_witness :
    (readSox 2 [[1], [0], [2], [0]]).isSome = true :=
  C2_read_exact_frames.2.1 2 [[1], [0], [2], [0]] (by decide) (by decide)

/-! ## Backend decision caching -/

theorem dispatchStateAfter_eq (n : Nat) (s : WakeModuleState) :
    dispatchStateAfter n s = s := by
  induction n with
  | zero => rfl
  | succ k ih => simpa [dispatchStateAfter, waitForWakeWordDispatch] using ih

/-- C3: the wake-engine backend decision is made once, at module import, and
cached in `_porcupine_mod`: after any number of `wait_for_wake_word` calls the
module state is unchanged, every call dispatches to the same backend as the
first, and the probe has run at most once. -/
theorem C3_backend_cached (isTermux probeLoads : Bool) (n : Nat) :
    dispatchStateAfter n (initWakeModule isTermux probeLoads)
      = initWakeModule isTermux probeLoads ∧
    (waitForWakeWordDispatch (dispatchStateAfter n (initWakeModule isTermux probeLoads))).1
      = wakeBackend (initWakeModule isTermux probeLoads) ∧
    (dispatchStateAfter n (initWakeModule isTermux probeLoads)).probeCount ≤ 1 := by
  refine ⟨dispatchStateAfter_eq n _, ?_, ?_⟩
  · rw [dispatchStateAfter_eq]
    rfl
  · rw [dispatchStateAfter_eq]
    unfold initWakeModule
    cases isTermux <;> simp

/-! ## Restoration of the patched wrapper -/

/-- C4: the probing routine restores `subprocess.check_output` to its original
value on every exit path, and — when the retry path is taken because the
plain import hit `NotImplementedError` and the CPU part is in the static map — the
retried import runs with the wrapper substituting the mapped supported
identifier, and Porcupine is selected exactly when both the retried import and
the native-library load check succeed. -/
theorem C4_probe_patch_restored (env : ProbeEnv) (co : CheckOutputFn) :
    (tryImportPorcupine env co).checkOutputAtReturn = co ∧
    (∀ part repl,
        env.plainImport = .notImplementedError →
        env.cpuPartRead = some part →
        mobileCpuMap.lookup part = some repl →
        (tryImportPorcupine env co).checkOutputDuringRetry
            = some (.patchedWith part repl) ∧
        (tryImportPorcupine env co).loaded
            = (env.patchedImportOk && env.nativeLibLoads)) := by
  obtain ⟨pi, nl, cp, po⟩ := env
  constructor
  · unfold tryImportPorcupine
    cases pi <;> try rfl
    cases cp with
    | none => rfl
    | some part =>
      simp only
      cases mobileCpuMap.lookup part with
      | none => rfl
      | some repl => cases po <;> rfl
  · intro part repl h1 h2 h3
    simp only at h1 h2 h3
    subst h1
    subst h2
    unfold tryImportPorcupine
    simp only [h3]
    cases po <;> cases nl <;> simp [verifyNativeLibrary]

/-- Witness for C4: a Cortex-A55 part (`0xd05`) remapped to `0xd03`, with the
retried import and the native load check both succeeding. -/
theorem C4_probe_patch_restored_witness :
    (tryImportPorcupine ⟨.notImplementedError, true, some "0xd05", true⟩
        .original).checkOutputAtReturn = .original ∧
    (tryImportPorcupine ⟨.notImplementedError, true, some "0xd05", true⟩
        .original).checkOutputDuringRetry = some (.patchedWith "0xd05" "0xd03") ∧
    (tryImportPorcupine ⟨.notImplementedError, true, some "0xd05", true⟩
        .original).loaded = true := by
  have h := C4_probe_patch_restored ⟨.notImplementedError, true, some "0xd05", true⟩ .original
  have h2 := h.2 "0xd05" "0xd03" rfl rfl (by decide)
  exact ⟨h.1, h2.1, by rw [h2.2]; rfl⟩

/-! ## Minimum-byte gate -/

/-- C5 counterexample: in the sox strategy of `_record_segment_termux` a
three-byte payload — far below the 100-byte minimum — is returned as a valid
segment, so the minimum-byte gate does not cover every recording strategy. -/
theorem C5_minimum_gate_counterexample :
    (recordSegmentTermux c5SoxEnv 16000).payload = some ([1, 2, 3], 16000) ∧
    ([1, 2, 3] : List Nat).length < 100 := by
  exact ⟨by decide, by decide⟩

/-- C5 amended: the mic-recorder strategy of both segment recorders treats a
payload below 100 bytes as capture failure and never invokes a decoder on it;
the sox strategy has no minimum-byte gate (it returns any non-empty payload,
as the counterexample shows). -/
theorem C5_minimum_gate_amended :
    (∀ (env : SegRecEnv) (rate : Nat),
        env.termuxRecAvail = true → env.ffmpegAvail = true →
        env.recRunRaises = false →
        (pollFileReads env.fileReads).length < 100 →
        (recordSegmentTermux env rate).payload = none ∧
        (recordSegmentTermux env rate).decoderCalled = false) ∧
    (∀ (env : RawRecEnv) (rate : Nat),
        env.termuxRecAvail = true → env.ffmpegAvail = true →
        env.recRunRaises = false →
        (pollFileReadsKeep [] env.fileReads).length < 100 →
        (recordRawTermux env rate).decoderCalled = false ∧
        (recordRawTermux env rate).payload
          = soxPipeRecord env.soxAvail env.soxRaises env.soxReturncode
              env.soxStdout rate) := by
  constructor
  · intro env rate h1 h2 h3 h4
    unfold recordSegmentTermux
    rw [if_pos ⟨h1, h2⟩, if_neg (by simp [h3]), if_pos (Or.inr h4)]
    exact ⟨rfl, rfl⟩
  · intro env rate h1 h2 h3 h4
    unfold recordRawTermux
    rw [if_pos ⟨h1, h2⟩, if_neg (by simp [h3]),
        if_neg (by intro hc; omega)]
    exact ⟨rfl, rfl⟩

/-- Witness for C5 (amended): the mic-recorder strategy with a five-byte file
payload fails without decoding. -/
theorem C5_minimum_gate_amended_witness :
    (recordSegmentTermux ⟨true, true, false, false, [[5]], false, 0, [],
        false, false, 0, []⟩ 16000).payload = none :=
  (C5_minimum_gate_amended.1 ⟨true, true, false, false, [[5]], false, 0, [],
      false, false, 0, []⟩ 16000 rfl rfl rfl (by decide)).1

/-! ## Recorder lifecycle safety -/

theorem stopPvrecorder_ok (env : RecorderEnv) (s : RecorderState) :
    stopPvrecorder env s = .ok s := by
  unfold stopPvrecorder opRecorderStop
  by_cases h : s.hasRecorder = true <;> by_cases h2 : env.recStopRaises = true <;>
    simp [h, h2]

theorem stopSox_ok (env : RecorderEnv) (s : RecorderState) :
    ∃ s1, stopSox env s = .ok s1 := by
  unfold stopSox opProcTerminate opProcKill
  by_cases h : s.hasProcess = true <;> by_cases h2 : env.procTerminateRaises = true <;>
    by_cases h3 : env.procStillAlive = true <;> simp [h, h2, h3]

theorem recorderStop_ok (env : RecorderEnv) (s : RecorderState) :
    ∃ s1, recorderStop env s = .ok s1 := by
  unfold recorderStop
  by_cases hs : s.started = true
  · rw [if_neg (by simp [hs])]
    cases hb : s.backend with
    | pvrecorder => rw [stopPvrecorder_ok]; exact ⟨_, rfl⟩
    | sox =>
      obtain ⟨s1, h1⟩ := stopSox_ok env s
      rw [h1]
      exact ⟨_, rfl⟩
  · rw [if_pos (by simp [Bool.eq_false_iff.2 hs])]
    exact ⟨s, rfl⟩

theorem recorderDelete_ok (env : RecorderEnv) (s : RecorderState) :
    ∃ s2, recorderDelete env s = .ok s2 := by
  unfold recorderDelete
  obtain ⟨s1, h1⟩ := recorderStop_ok env s
  rw [h1]
  unfold opRecorderDelete
  by_cases h : s1.hasRecorder = true <;> by_cases h2 : env.recDeleteRaises = true <;>
    simp [h, h2]

/-- C6: `start()` on an already-started recorder is a no-op; `stop()` on a
stopped recorder returns unchanged; `stop()` never raises in any environment
(including a dead process or raising library calls); and `delete()` never
raises — every teardown exception is swallowed. -/
theorem C6_lifecycle_safe (env : RecorderEnv) (s : RecorderState) :
    (s.started = true → recorderStart env s = .ok s) ∧
    (s.started = false → recorderStop env s = .ok s) ∧
    (∃ s1, recorderStop env s = .ok s1) ∧
    (∃ s2, recorderDelete env s = .ok s2) := by
  refine ⟨?_, ?_, recorderStop_ok env s, recorderDelete_ok env s⟩
  · intro h
    unfold recorderStart
    rw [if_pos (by simp [h])]
  · intro h
    unfold recorderStop
    rw [if_pos (by simp [h])]

/-- Witness for C6: a started sox-backed recorder with every teardown call
raising still starts as a no-op. -/
theorem C6_lifecycle_safe_witness :
    recorderStart ⟨true, true, true, true, true, false⟩ ⟨.sox, true, false, true⟩
      = .ok ⟨.sox, true, false, true⟩ :=
  (C6_lifecycle_safe ⟨true, true, true, true, true, false⟩ ⟨.sox, true, false, true⟩).1 rfl

/-! ## Listener behaviour -/

/-- C7: `listen_for_song_name` returns the stripped transcription on success
and `None` on every recoverable failure — capture failure on Termux,
pre-speech timeout on desktop, no speech detected, and transcription-service
error — indistinguishably; and the retry policy of `main` performs at most two
listen attempts, speaking the "sorry" feedback only after a second failed
attempt. -/
theorem C7_listener_uniform_none :
    (∀ (env : ListenEnv) (t : String),
        env.isTermux = true → env.termuxAudio ≠ none →
        env.recognize = .recognized t → pyStripStr t ≠ "" →
        listenForSongName env = some (pyStripStr t)) ∧
    (∀ (env : ListenEnv) (t : String),
        env.isTermux = false → env.waitTimeoutRaised = false →
        env.recognize = .recognized t → pyStripStr t ≠ "" →
        listenForSongName env = some (pyStripStr t)) ∧
    (∀ env : ListenEnv, env.isTermux = true → env.termuxAudio = none →
        listenForSongName env = none) ∧
    (∀ env : ListenEnv, env.isTermux = false → env.waitTimeoutRaised = true →
        listenForSongName env = none) ∧
    (∀ env : ListenEnv, env.recognize = .unknownValueError →
        listenForSongName env = none) ∧
    (∀ env : ListenEnv, env.recognize = .requestError →
        listenForSongName env = none) ∧
    (∀ e1 e2 : ListenEnv,
        (mainListenRetry e1 e2).attempts ≤ 2 ∧
        ((mainListenRetry e1 e2).sorrySpoken = true →
          (mainListenRetry e1 e2).attempts = 2)) := by
  have hrec : ∀ (t : String), pyStripStr t ≠ "" →
      recognizeSongStep (.recognized t) = some (pyStripStr t) := by
    intro t ht
    simp [recognizeSongStep, ht]
  refine ⟨?_, ?_, ?_, ?_, ?_, ?_, ?_⟩
  · intro env t h1 h2 h3 h4
    unfold listenForSongName
    rw [if_pos (by simp [h1])]
    cases ha : env.termuxAudio with
    | none => exact absurd ha h2
    | some _ => rw [h3]; exact hrec t h4
  · intro env t h1 h2 h3 h4
    unfold listenForSongName
    rw [if_neg (by simp [h1]), if_neg (by simp [h2]), h3]
    exact hrec t h4
  · intro env h1 h2
    unfold listenForSongName
    rw [if_pos (by simp [h1]), h2]
  · intro env h1 h2
    unfold listenForSongName
    rw [if_neg (by simp [h1]), if_pos (by simp [h2])]
  · intro env h1
    unfold listenForSongName recognizeSongStep
    rw [h1]
    by_cases h : env.isTermux = true
    · rw [if_pos (by simp [h])]
      cases env.termuxAudio <;> rfl
    · rw [if_neg (by simp_all)]
      by_cases hw : env.waitTimeoutRaised = true
      · rw [if_pos (by simp [hw])]
      · rw [if_neg (by simp_all)]
  · intro env h1
    unfold listenForSongName recognizeSongStep
    rw [h1]
    by_cases h : env.isTermux = true
    · rw [if_pos (by simp [h])]
      cases env.termuxAudio <;> rfl
    · rw [if_neg (by simp_all)]
      by_cases hw : env.waitTimeoutRaised = true
      · rw [if_pos (by simp [hw])]
      · rw [if_neg (by simp_all)]
  · intro e1 e2
    unfold mainListenRetry
    by_cases h1 : listenForSongName e1 = none ∨ listenForSongName e1 = some ""
    · rw [if_pos h1]
      by_cases h2 : listenForSongName e2 = none ∨ listenForSongName e2 = some ""
      · rw [if_pos h2]
        exact ⟨le_refl 2, fun _ => rfl⟩
      · rw [if_neg h2]
        exact ⟨le_refl 2, fun hc => absurd hc (by simp)⟩
    · rw [if_neg h1]
      exact ⟨by simp, fun hc => absurd hc (by simp)⟩

/-- Witness for C7: a Termux capture failure collapses to `None`. -/
theorem C7_listener_uniform_none_witness :
    listenForSongName ⟨true, none, false, .recognized "song"⟩ = none :=
  C7_listener_uniform_none.2.2.1 ⟨true, none, false, .recognized "song"⟩ rfl rfl

/-! ## Transient-file cleanup -/

/-- C8 counterexample: when the recorder invocation of `_record_raw_termux`
itself raises (for example `TimeoutExpired`) after the Termux:API service
created the output file, the `except` handler skips the `os.unlink` and the
file survives the call — deletion is not guaranteed on this failure path. -/
theorem C8_cleanup_counterexample :
    c8TimeoutEnv.fileWritten = true ∧
    (recordRawTermux c8TimeoutEnv 16000).recUnlinkCalled = false ∧
    (recordRawTermux c8TimeoutEnv 16000).payload = none := by
  exact ⟨rfl, by decide, by decide⟩

/-- C8 amended: on every path on which the recorder invocation returns
(success, undersized payload, decode failure or decode timeout), both segment
recorders execute the `os.unlink` of the recording file, and the decoder-input
tempfile of `_record_raw_termux` is deleted by the `finally` whenever it was
created; only the path on which the recorder invocation itself raises skips
the unlink. -/
theorem C8_cleanup_amended :
    (∀ (env : SegRecEnv) (rate : Nat),
        env.termuxRecAvail = true → env.ffmpegAvail = true →
        env.recRunRaises = false →
        (recordSegmentTermux env rate).unlinkCalled = true) ∧
    (∀ (env : RawRecEnv) (rate : Nat),
        env.termuxRecAvail = true → env.ffmpegAvail = true →
        env.recRunRaises = false →
        (recordRawTermux env rate).recUnlinkCalled = true) ∧
    (∀ (env : RawRecEnv) (rate : Nat),
        (recordRawTermux env rate).tmpDeleted = (recordRawTermux env rate).tmpCreated) := by
  refine ⟨?_, ?_, ?_⟩
  · intro env rate h1 h2 h3
    unfold recordSegmentTermux
    rw [if_pos ⟨h1, h2⟩, if_neg (by simp [h3])]
    split_ifs <;> rfl
  · intro env rate h1 h2 h3
    unfold recordRawTermux rawDecodeTmp rawFfmpegDecode rawSoxAfterTmp
    rw [if_pos ⟨h1, h2⟩, if_neg (by simp [h3])]
    split_ifs <;> rfl
  · intro env rate
    unfold recordRawTermux rawDecodeTmp rawFfmpegDecode rawSoxAfterTmp
    split_ifs <;> rfl

/-- Witness for C8 (amended): a completed recorder run with an undersized file
payload still unlinks the recording file. -/
theorem C8_cleanup_amended_witness :
    (recordSegmentTermux ⟨true, true, false, true, [[7]], false, 0, [],
        false, false, 0, []⟩ 16000).unlinkCalled = true :=
  C8_cleanup_amended.1 ⟨true, true, false, true, [[7]], false, 0, [],
      false, false, 0, []⟩ 16000 rfl rfl rfl

/-! ## Wake matching ignores the configured extra phrases -/

/-- C9: contrary to the claim (and to the comment in `config.py` documenting
`WAKE_PHRASES`), `_wait_speech_recognition` matches a recognised transcript
only against `config.WAKE_WORD.lower()`: a transcript equal to a configured
extra wake phrase is not detected, although the fuzzy rule itself would match
it, while the primary wake word is detected; the spec-described detection
(`wakeTranscriptDetectedSpec`) accepts it. -/
theorem C9_extra_phrases_ignored :
    wakeTranscriptDetected ⟨"doraemon", ["ok musica"]⟩ "ok musica" = false ∧
    wakeTranscriptDetectedSpec ⟨"doraemon", ["ok musica"]⟩ "ok musica" = true ∧
    matchesWakeWord "ok musica" "ok musica" = true ∧
    wakeTranscriptDetected ⟨"doraemon", ["ok musica"]⟩ "hey doraemon" = true := by
  exact ⟨by decide, by decide, by decide, by decide⟩

/-! ## Strip idempotence and the non-empty listener result -/

theorem dropWhile_twice {α : Type} (p : α → Bool) :
    ∀ l : List α, (l.dropWhile p).dropWhile p = l.dropWhile p
  | [] => rfl
  | a :: t => by
    rw [List.dropWhile_cons]
    split
    · exact dropWhile_twice p t
    · rename_i h
      rw [List.dropWhile_cons, if_neg h]

theorem pyStrip_dropWhile_eq (l : List Char) :
    (pyStrip l).dropWhile isPySpace = pyStrip l := by
  unfold pyStrip
  obtain ⟨u, hu⟩ : (l.dropWhile isPySpace).reverse.dropWhile isPySpace
      <:+ (l.dropWhile isPySpace).reverse := List.dropWhile_suffix _
  cases hrv : ((l.dropWhile isPySpace).reverse.dropWhile isPySpace).reverse with
  | nil => rfl
  | cons x xs =>
    have hd : l.dropWhile isPySpace = x :: (xs ++ u.reverse) := by
      have h1 := congrArg List.reverse hu
      rw [List.reverse_append, List.reverse_reverse] at h1
      rw [hrv] at h1
      simpa using h1.symm
    have hx : isPySpace x = false := by
      have h2 := List.head?_dropWhile_not isPySpace l
      rw [hd] at h2
      simpa using h2
    rw [List.dropWhile_cons, if_neg (by simp [hx])]

theorem pyStrip_idem (l : List Char) : pyStrip (pyStrip l) = pyStrip l := by
  show (((pyStrip l).dropWhile isPySpace).reverse.dropWhile isPySpace).reverse = pyStrip l
  rw [pyStrip_dropWhile_eq]
  unfold pyStrip
  rw [List.reverse_reverse, dropWhile_twice]

theorem pyStripStr_idem (s : String) : pyStripStr (pyStripStr s) = pyStripStr s := by
  unfold pyStripStr
  exact congrArg String.mk (pyStrip_idem s.data)

theorem recognizeSongStep_shape (oc : RecognizeOutcome) (s : String)
    (h : recognizeSongStep oc = some s) : s ≠ "" ∧ pyStripStr s = s := by
  cases oc with
  | recognized t =>
    simp only [recognizeSongStep] at h
    by_cases ht : pyStripStr t = ""
    · rw [if_pos ht] at h
      exact absurd h (by simp)
    · rw [if_neg ht] at h
      injection h with h1
      subst h1
      exact ⟨ht, pyStripStr_idem t⟩
  | unknownValueError => exact absurd h (by simp [recognizeSongStep])
  | requestError => exact absurd h (by simp [recognizeSongStep])

/-- C10: `listen_for_song_name` never returns the empty string — a result is
either `None` or a non-empty string that is its own strip (no leading or
trailing whitespace); a transcription that strips to empty collapses to
`None`. -/
theorem C10_result_nonempty_stripped (env : ListenEnv) (s : String) :
    listenForSongName env = some s → s ≠ "" ∧ pyStripStr s = s := by
  intro h
  unfold listenForSongName at h
  by_cases hterm : env.isTermux = true
  · rw [if_pos (by simp [hterm])] at h
    cases ha : env.termuxAudio with
    | none => rw [ha] at h; exact absurd h (by simp)
    | some _ => rw [ha] at h; exact recognizeSongStep_shape _ s h
  · rw [if_neg (by simp_all)] at h
    by_cases hw : env.waitTimeoutRaised = true
    · rw [if_pos (by simp [hw])] at h
      exact absurd h (by simp)
    · rw [if_neg (by simp_all)] at h
      exact recognizeSongStep_shape _ s h

/-- Witness for C10: a transcription with surrounding whitespace comes back
stripped and non-empty. -/
theorem C10_result_nonempty_stripped_witness :
    ("hello" : String) ≠ "" ∧ pyStripStr "hello" = "hello" :=
  C10_result_nonempty_stripped ⟨false, none, false, .recognized " hello "⟩ "hello"
    (by decide)
